import Mathlib

/-!
Verification of the carpooling backend's booking / bidding / payment /
pricing core against its design description.

The JavaScript source is shallowly embedded:
* Mongoose documents become Lean structures; object ids become `Nat`.
* Each controller action becomes a pure function from the pre-state (and the
  documents the action reads) to `Except ApiErr post-state`; an `error`
  result models the early `return res.status(...)` paths, which perform no
  mutation, so an error leaves every document unchanged by construction.
  A single returned post-state models the single atomic `save()` of the
  mutated aggregate.
* `Date.now` / `new Date()` are injected as an explicit `now : Nat`
  parameter (fixed clock), and `new Date().getFullYear()` as
  `currentYear : Int`; `getHours()` of a departure time is injected as the
  precomputed local hour.
* JavaScript truthiness on optional strings / numbers (`0`, `''`,
  `null`, `undefined` are falsy) is modelled explicitly where the source
  relies on it.
* IEEE-754 doubles of the pricing code are idealised as real numbers.
-/

namespace Carpool

/-- Booking/trip lifecycle states, from the `status` enum of
`src/models/Trip.js`. -/
inductive TripStatus
  | pending_driver
  | confirmed
  | paid
  | in_progress
  | completed
  | cancelled
deriving DecidableEq

/-- Status of one driver bid (`driverRequests[].status` enum). -/
inductive ReqStatus
  | pending
  | accepted
  | declined
deriving DecidableEq

/-- Status of one roster entry (`passengers[].status` enum). -/
inductive PassStatus
  | pending
  | accepted
  | declined
  | cancelled
deriving DecidableEq

/-- Payment status of one roster entry (`passengers[].paymentStatus` enum). -/
inductive RosterPayStatus
  | not_required
  | pending
  | completed
  | failed
deriving DecidableEq

/-- One driver bid: an entry of `Trip.driverRequests`. -/
structure DriverRequest where
  id : Nat
  driver : Nat
  proposedPrice : Int
  message : Option String
  status : ReqStatus
  requestedAt : Nat
  respondedAt : Option Nat
deriving DecidableEq

/-- One roster entry: an entry of `Trip.passengers`. -/
structure PassengerEntry where
  user : Nat
  status : PassStatus
  paymentStatus : RosterPayStatus
  paymentId : Option Nat
  requestedAt : Option Nat
  updatedAt : Option Nat
deriving DecidableEq

/-- The booking aggregate (`src/models/Trip.js`), restricted to the fields the
modelled operations read or write. -/
structure Trip where
  id : Nat
  requestedBy : Nat
  driver : Option Nat
  price : Int
  maxPrice : Option Int
  vehicleTypeUsed : Option String
  status : TripStatus
  driverRequests : List DriverRequest
  passengers : List PassengerEntry
  confirmedAt : Option Nat
  cancellationReason : Option String
deriving DecidableEq

/-- A driver's vehicle record (`User.vehicle`); optional fields model
possibly-absent document fields. -/
structure Vehicle where
  brand : Option String
  seats : Option Int
  year : Option Int
  licensePlate : Option String
deriving DecidableEq

/-- A user document, restricted to the fields the modelled operations read. -/
structure User where
  id : Nat
  role : String
  vehicle : Option Vehicle
deriving DecidableEq

/-- An HTTP error response: `res.status(code).json(error-message)`. -/
structure ApiErr where
  code : Nat
  msg : String
deriving DecidableEq

/-- Whether an action succeeded (reached its mutating `save()` path). -/
def isOkE {ε α : Type} : Except ε α → Bool
  | .ok _ => true
  | .error _ => false

/-- The HTTP status code of a failed action, if it failed. -/
def errCode {α : Type} : Except ApiErr α → Option Nat
  | .ok _ => none
  | .error e => some e.code

/-- JavaScript truthiness of an optional string (absent and `''` are falsy). -/
def strTruthy : Option String → Bool
  | some s => s ≠ ""
  | none => false

/-- JavaScript `x <= n` where `x` may be `undefined` (always false then). -/
def jsOptLe : Option Int → Int → Bool
  | some x, n => x ≤ n
  | none, _ => false

/-- JavaScript `x > n` where `x` may be `undefined` (always false then). -/
def jsOptGt : Option Int → Int → Bool
  | some x, n => n < x
  | none, _ => false

/-- The luxury brand list shared by `estimatePrice` and
`respondToDriverRequest` in `src/controllers/tripController.js`. -/
def luxuryBrands : List String := ["mercedes", "bmw", "audi", "lexus"]

/-- Char-list version of `String.prototype.startsWith`. -/
def strStartsWith : List Char → List Char → Bool
  | _, [] => true
  | [], _ :: _ => false
  | c :: cs, d :: ds => c = d && strStartsWith cs ds

/-- Char-list version of `String.prototype.includes`. -/
def strIncludes : List Char → List Char → Bool
  | [], needle => needle.isEmpty
  | c :: cs, needle => strStartsWith (c :: cs) needle || strIncludes cs needle

/-- `luxuryBrands.some((b) => brand.toLowerCase().includes(b))`; lower-casing
is done per character on the char list. -/
def luxAny (brand : String) : Bool :=
  luxuryBrands.any fun lb => strIncludes (brand.toList.map Char.toLower) lb.toList

/-- Vehicle classification performed inside the accept branch of
`respondToDriverRequest` (tripController.js:2326-2343): default `car`,
`seats <= 2` means motorcycle, `seats > 5` means suv, overridden to luxury
when the (truthy) brand contains a luxury brand. -/
def classifyVehicle (v : Vehicle) : String :=
  let base :=
    if jsOptLe v.seats 2 then "motorcycle"
    else if jsOptGt v.seats 5 then "suv"
    else "car"
  if strTruthy v.brand ∧ luxAny (v.brand.getD "") then "luxury" else base

/-- Vehicle classification performed inside `estimatePrice`
(tripController.js:1940-1955): the seats rule and the luxury override run
only under `if (vehicle.brand)`; a vehicle without a truthy brand falls back
to `car` outright. -/
def classifyEstimateVehicle (v : Vehicle) : String :=
  match v.brand with
  | none => "car"
  | some b =>
    if b = "" then "car"
    else
      let base :=
        if jsOptLe v.seats 2 then "motorcycle"
        else if jsOptGt v.seats 5 then "suv"
        else "car"
      if luxAny b then "luxury" else base

/-- The classification the specification describes (one deterministic
function of the vehicle record): seats at most 2 means motorcycle, more than
5 means suv, otherwise car, overridden to luxury whenever the brand contains
(case-insensitively) a luxury brand. Stated from the claim's words, for
comparison with the two source-side functions. -/
def specClassifyVehicle (v : Vehicle) : String :=
  let base :=
    if jsOptLe v.seats 2 then "motorcycle"
    else if jsOptGt v.seats 5 then "suv"
    else "car"
  let lux :=
    match v.brand with
    | some b => luxAny b
    | none => false
  if lux then "luxury" else base

/-- Apply `f` to the first list entry satisfying `p` (a Mongoose subdocument
lookup by `_id` followed by an in-place mutation touches exactly one
subdocument). -/
def updateFirstBy {α : Type} (p : α → Bool) (f : α → α) : List α → List α
  | [] => []
  | x :: xs => if p x then f x :: xs else x :: updateFirstBy p f xs

/-- `!driver.vehicle || !driver.vehicle.licensePlate`, negated: the driver
holds vehicle data with a truthy licence plate. -/
def vehicleComplete (u : User) : Bool :=
  match u.vehicle with
  | none => false
  | some v => strTruthy v.licensePlate

/-- `driverRequestBooking` (tripController.js:2088-2176): a driver submits a
bid on a booking.  `newId` stands for the generated subdocument id. -/
def driverRequestBooking (trip : Trip) (driver : User) (proposedPrice : Int)
    (message : Option String) (newId now : Nat) : Except ApiErr Trip :=
  if trip.status ≠ .pending_driver then
    .error ⟨400, "This booking request is no longer available"⟩
  else if (trip.driverRequests.find? fun r => r.driver = driver.id).isSome then
    .error ⟨400, "You have already requested this booking"⟩
  else if ¬(driver.role = "driver" ∨ driver.role = "both") then
    .error ⟨403, "Only registered drivers can request bookings"⟩
  else if ¬(vehicleComplete driver = true) then
    .error ⟨400, "Please complete your vehicle information first"⟩
  else
    let pushed : Trip :=
      { trip with
        driverRequests := trip.driverRequests ++
          [{ id := newId, driver := driver.id, proposedPrice := proposedPrice,
             message := message, status := .pending, requestedAt := now,
             respondedAt := none }] }
    match trip.maxPrice with
    | some m =>
      if m ≠ 0 ∧ m < proposedPrice then
        .error ⟨400, "Proposed price exceeds maximum budget"⟩
      else .ok pushed
    | none => .ok pushed

/-- The per-bid effect of accepting request `rid`: that bid becomes accepted,
every other still-pending bid becomes declined, anything else is untouched. -/
def acceptTransform (rid now : Nat) (r : DriverRequest) : DriverRequest :=
  if r.id = rid then { r with status := .accepted, respondedAt := some now }
  else if r.status = .pending then { r with status := .declined, respondedAt := some now }
  else r

/-- The bid-list update the accept branch performs: mutate the looked-up
request to accepted, then the `forEach` loop declines every other pending
request (tripController.js:2316-2351). -/
def resolveRequests (rid now : Nat) (reqs : List DriverRequest) : List DriverRequest :=
  (updateFirstBy (fun r => r.id = rid)
      (fun r => { r with status := .accepted, respondedAt := some now }) reqs).map
    fun r =>
      if r.id ≠ rid ∧ r.status = .pending then
        { r with status := .declined, respondedAt := some now }
      else r

/-- `respondToDriverRequest` (tripController.js:2268-2390): the requester
accepts or declines one driver bid.  `findUser` models `User.findById`; a
failed lookup in the accept branch models the thrown `TypeError` on
`driver.vehicle`, caught as a 500 with nothing saved. -/
def respondToDriverRequest (trip : Trip) (actor rid : Nat) (action : String)
    (findUser : Nat → Option User) (now : Nat) : Except ApiErr Trip :=
  if trip.requestedBy ≠ actor then
    .error ⟨403, "Only the trip requester can respond to driver requests"⟩
  else if trip.status ≠ .pending_driver then
    .error ⟨400, "This booking request is no longer pending"⟩
  else
    match trip.driverRequests.find? fun r => r.id = rid with
    | none => .error ⟨404, "Driver request not found"⟩
    | some dr =>
      if dr.status ≠ .pending then
        .error ⟨400, "This driver request has already been responded to"⟩
      else if action = "accept" then
        match findUser dr.driver with
        | none => .error ⟨500, "Cannot read properties of null"⟩
        | some du =>
          .ok { trip with
                status := .confirmed,
                driver := some dr.driver,
                price := dr.proposedPrice,
                confirmedAt := some now,
                vehicleTypeUsed :=
                  match du.vehicle with
                  | some v => some (classifyVehicle v)
                  | none => trip.vehicleTypeUsed,
                driverRequests := resolveRequests rid now trip.driverRequests }
      else if action = "decline" then
        .ok { trip with
              driverRequests :=
                updateFirstBy (fun r => r.id = rid)
                  (fun r => { r with status := .declined, respondedAt := some now })
                  trip.driverRequests }
      else .error ⟨400, "Invalid action"⟩

/-- The `passengerCount` virtual of Trip.js: accepted roster entries. -/
def passengerCount (trip : Trip) : Nat :=
  (trip.passengers.filter fun p => p.status = PassStatus.accepted).length

/-- Number of accepted bids in a bid list. -/
def countAccepted (reqs : List DriverRequest) : Nat :=
  (reqs.filter fun r => r.status = ReqStatus.accepted).length

/-- `deleteTrip` (tripController.js:845-899).  The `.ok` result models
reaching `trip.remove()`. -/
def deleteTrip (trip : Trip) (actor : Nat) : Except ApiErr Unit :=
  if ¬(trip.requestedBy = actor) ∧ ¬(trip.driver = some actor) then
    .error ⟨403, "Not authorized to delete this trip"⟩
  else if trip.status = .pending_driver ∧ ¬(trip.requestedBy = actor) then
    .error ⟨403, "Only trip requester can delete pending trips"⟩
  else if trip.status = .paid ∨ trip.status = .in_progress ∨ trip.status = .completed then
    .error ⟨400, "Cannot delete paid trips. Cancel it instead."⟩
  else
    .ok ()

/-- `cancelTrip` (tripController.js:904-970).  The source dereferences
`trip.driver.toString()` unconditionally, so a booking with no assigned
driver throws a TypeError, caught as a 500 with nothing saved. -/
def cancelTrip (trip : Trip) (actor : Nat) (reason : Option String) :
    Except ApiErr Trip :=
  match trip.driver with
  | none => .error ⟨500, "Cannot read properties of null"⟩
  | some d =>
    if d ≠ actor then
      .error ⟨403, "Not authorized to cancel this trip"⟩
    else if trip.status = .completed then
      .error ⟨400, "Cannot cancel a completed trip"⟩
    else if trip.status = .cancelled then
      .error ⟨400, "Trip is already cancelled"⟩
    else
      .ok { trip with status := .cancelled, cancellationReason := reason }

/-- `updateTrip` (tripController.js:735-814).  `upd` stands for the
`findByIdAndUpdate(req.body)` field rewrite applied on success. -/
def updateTrip (trip : Trip) (actor : Nat) (upd : Trip → Trip) :
    Except ApiErr Trip :=
  if ¬(trip.requestedBy = actor) ∧ ¬(trip.driver = some actor) then
    .error ⟨403, "Not authorized to update this trip"⟩
  else if trip.status = .pending_driver ∧ ¬(trip.requestedBy = actor) then
    .error ⟨403, "Only trip requester can update pending trips"⟩
  else if (trip.status = .confirmed ∨ trip.status = .paid ∨ trip.status = .in_progress)
      ∧ ¬(trip.driver = some actor) then
    .error ⟨403, "Only assigned driver can update confirmed trips"⟩
  else if trip.status = .completed ∨ trip.status = .cancelled then
    .error ⟨400, "Cannot update this trip"⟩
  else
    .ok (upd trip)

/-! ### Payment reconciliation (`src/models/Payment.js`,
`src/controllers/paymentController.js`, `src/config/vnpay.js`) -/

/-- Payment lifecycle states (`Payment.status` enum). -/
inductive PaymentStatus
  | pending
  | completed
  | failed
  | cancelled
  | refunded
deriving DecidableEq

/-- The parsed gateway return data (`VNPayHelper.verifyReturnData`): the
signature-verification outcome plus the fields the controller reads. -/
structure VnpCallbackData where
  isValid : Bool
  responseCode : String
  transactionStatus : String
  txnRef : String
  transactionNo : Option String
  bankCode : Option String
  bankTranNo : Option String
  cardType : Option String
  payDate : Option String
deriving DecidableEq

/-- A Payment document (`src/models/Payment.js`), restricted to the fields
the modelled operations read or write. -/
structure Payment where
  id : Nat
  user : Nat
  trip : Nat
  amount : Int
  vnpTxnRef : String
  status : PaymentStatus
  completedAt : Option Nat
  vnpResponse : Option VnpCallbackData
  vnpTransactionNo : Option String
  vnpBankCode : Option String
  vnpBankTranNo : Option String
  vnpCardType : Option String
  vnpPayDate : Option String
  note : Option String
deriving DecidableEq

/-- `if (vnpResponse.field) this.field = vnpResponse.field` — copy a gateway
field only when it is truthy. -/
def copyTruthy (old incoming : Option String) : Option String :=
  match incoming with
  | some s => if s = "" then old else some s
  | none => old

/-- `Payment.markAsCompleted` (Payment.js:115-138). -/
def markAsCompleted (p : Payment) (resp : VnpCallbackData) (now : Nat) : Payment :=
  { p with
    status := .completed,
    completedAt := some now,
    vnpResponse := some resp,
    vnpTransactionNo := copyTruthy p.vnpTransactionNo resp.transactionNo,
    vnpBankCode := copyTruthy p.vnpBankCode resp.bankCode,
    vnpBankTranNo := copyTruthy p.vnpBankTranNo resp.bankTranNo,
    vnpCardType := copyTruthy p.vnpCardType resp.cardType,
    vnpPayDate := copyTruthy p.vnpPayDate resp.payDate }

/-- `Payment.markAsFailed` (Payment.js:141-146); `reason` is always the
non-empty message produced by `getStatusMessage`. -/
def markAsFailed (p : Payment) (resp : VnpCallbackData) (reason : String) : Payment :=
  { p with status := .failed, vnpResponse := some resp, note := some reason }

/-- `VNPayHelper.isSuccessTransaction` (vnpay.js:156-158). -/
def isSuccessTransaction (responseCode transactionStatus : String) : Bool :=
  responseCode = "00" && transactionStatus = "00"

/-- `VNPayHelper.getStatusMessage`: the Vietnamese message table keyed by
response code.  The claims depend only on it being a function of the code,
so the text is abstracted to the code itself. -/
def getStatusMessage (responseCode : String) : String :=
  responseCode

/-- The redirect sent back to the frontend (status and message query
parameters of the `vnp_FrontendReturnUrl`). -/
structure RedirectResult where
  status : String
  message : String
deriving DecidableEq

/-- `vnpayReturn` (paymentController.js:177-266).  `lookup` is the result of
`Payment.findOne(vnpTxnRef = q.txnRef)` together with its populated trip;
the function returns the redirect plus the post-state of that pair (`none`
when no payment matched — nothing to mutate). -/
def vnpayReturn (q : VnpCallbackData) (lookup : Option (Payment × Trip))
    (now : Nat) : RedirectResult × Option (Payment × Trip) :=
  if ¬q.isValid then
    (⟨"error", "Invalid VNPay response signature"⟩, lookup)
  else
    match lookup with
    | none => (⟨"error", "Payment not found"⟩, none)
    | some (p, t) =>
      if isSuccessTransaction q.responseCode q.transactionStatus then
        let p2 := markAsCompleted p q now
        let accepted : PassengerEntry → PassengerEntry := fun e =>
          { e with status := .accepted, paymentStatus := .completed,
                   paymentId := some p.id, updatedAt := some now }
        let newEntry : PassengerEntry :=
          { user := p.user, status := .accepted, paymentStatus := .completed,
            paymentId := some p.id, requestedAt := some now,
            updatedAt := some now }
        let t2 :=
          if (t.passengers.find? fun e => e.user = p.user).isSome then
            { t with passengers :=
                updateFirstBy (fun e => e.user = p.user) accepted t.passengers }
          else
            { t with passengers := t.passengers ++ [newEntry] }
        (⟨"success", "Payment completed successfully"⟩, some (p2, t2))
      else
        let p2 := markAsFailed p q (getStatusMessage q.responseCode)
        (⟨"failed", getStatusMessage q.responseCode⟩, some (p2, t))

/-! ### Pricing engine (`src/utils/priceCalculator.js`)

The floating-point arithmetic of the source is idealised as exact real
arithmetic, hence these definitions are noncomputable; every theorem about
them is stated without recourse to evaluation of transcendental functions. -/

/-- A latitude/longitude pair (the `{lat, lng}` coordinate objects the
calculator receives). -/
structure Coord where
  lat : ℝ
  lng : ℝ

/-- `Math.atan2(y, x)` on reals (signed zeros of IEEE-754 collapse to 0). -/
noncomputable def atan2 (y x : ℝ) : ℝ :=
  if 0 < x then Real.arctan (y / x)
  else if x < 0 then
    (if 0 ≤ y then Real.arctan (y / x) + Real.pi
     else Real.arctan (y / x) - Real.pi)
  else if 0 < y then Real.pi / 2
  else if y < 0 then -(Real.pi / 2)
  else 0

/-- The haversine intermediate value `a` of `calculateDistance`
(priceCalculator.js:8-13). -/
noncomputable def havTerm (p q : Coord) : ℝ :=
  Real.sin ((q.lat - p.lat) * Real.pi / 180 / 2) *
      Real.sin ((q.lat - p.lat) * Real.pi / 180 / 2) +
    Real.cos (p.lat * Real.pi / 180) * Real.cos (q.lat * Real.pi / 180) *
      Real.sin ((q.lng - p.lng) * Real.pi / 180 / 2) *
      Real.sin ((q.lng - p.lng) * Real.pi / 180 / 2)

/-- `calculateDistance` (priceCalculator.js:3-17): haversine great-circle
distance in kilometres, Earth radius 6371 km. -/
noncomputable def calculateDistance (p q : Coord) : ℝ :=
  6371 * (2 * atan2 (Real.sqrt (havTerm p q)) (Real.sqrt (1 - havTerm p q)))

/-- `getBaseRateByVehicleType` (priceCalculator.js:20-28): the
`rates[vehicleType] || rates.car` lookup. -/
noncomputable def getBaseRateByVehicleType (vehicleType : String) : ℝ :=
  if vehicleType = "motorcycle" then 5000
  else if vehicleType = "car" then 10000
  else if vehicleType = "suv" then 12000
  else if vehicleType = "luxury" then 15000
  else 10000

/-- `getPeakHourMultiplier` (priceCalculator.js:31-38); `hour` is
`new Date(departureTime).getHours()`. -/
noncomputable def getPeakHourMultiplier (hour : ℕ) : ℝ :=
  if (7 ≤ hour ∧ hour ≤ 9) ∨ (16 ≤ hour ∧ hour ≤ 19) then 1.2 else 1.0

/-- `getVehicleQualityMultiplier` (priceCalculator.js:41-50);
`currentYear` is the injected `new Date().getFullYear()`. -/
noncomputable def getVehicleQualityMultiplier (currentYear vehicleYear : ℤ) : ℝ :=
  if currentYear - vehicleYear ≤ 2 then 1.1
  else if currentYear - vehicleYear ≤ 5 then 1.0
  else 0.9

/-- The `vehicle` argument of `calculatePrice`: possibly-absent `type` and
`year` fields. -/
structure VehicleSpec where
  type : Option String
  year : Option Int
deriving DecidableEq

/-- The `breakdown` object returned by `calculatePrice`. -/
structure PriceBreakdown where
  distanceInKm : ℝ
  baseRate : ℝ
  peakHourMultiplier : ℝ
  qualityMultiplier : ℝ

/-- The `{price, breakdown}` object returned by `calculatePrice`; the price
is an integer number of VND. -/
structure PriceResult where
  price : ℤ
  breakdown : PriceBreakdown

/-- `vehicle?.type || 'car'` (falsy type collapses to `car`). -/
def effVehicleType (t : Option String) : String :=
  match t with
  | some s => if s = "" then "car" else s
  | none => "car"

/-- `vehicle?.year || currentYear - 3` (falsy year collapses to the
three-year-old default). -/
def effVehicleYear (y : Option Int) (currentYear : ℤ) : ℤ :=
  match y with
  | some v => if v = 0 then currentYear - 3 else v
  | none => currentYear - 3

/-- `calculatePrice` (priceCalculator.js:53-81) with the clock injected:
`hour` is the local hour of the departure time and `currentYear` the current
year. -/
noncomputable def calculatePrice (startCoords endCoords : Coord)
    (vehicle : VehicleSpec) (hour : ℕ) (currentYear : ℤ) : PriceResult :=
  let distanceInKm := calculateDistance startCoords endCoords
  let baseRate := getBaseRateByVehicleType (effVehicleType vehicle.type)
  let peakMultiplier := getPeakHourMultiplier hour
  let qualityMultiplier :=
    getVehicleQualityMultiplier currentYear (effVehicleYear vehicle.year currentYear)
  let finalPrice := distanceInKm * baseRate * peakMultiplier * qualityMultiplier
  { price := ⌈finalPrice / 1000⌉ * 1000,
    breakdown :=
      { distanceInKm := (round (distanceInKm * 10) : ℤ) / 10,
        baseRate := baseRate,
        peakHourMultiplier := peakMultiplier,
        qualityMultiplier := qualityMultiplier } }

/-- The price formula as the specification words it, for comparison with
`calculatePrice`: distance times the per-km rate for the vehicle type
(unknown type falls back to the car rate 10000) times the peak multiplier
(1.2 when the hour lies in [7,9] or [16,19]) times the age multiplier
(age at most 2 gives 1.1, ages 3 to 5 give 1.0, older gives 0.9), rounded up
to the nearest 1000. -/
noncomputable def specPriceResult (d : ℝ) (vehicleType : Option String)
    (vehicleYear : ℤ) (hour : ℕ) (currentYear : ℤ) : PriceResult :=
  let rate : ℝ :=
    if vehicleType = some "motorcycle" then 5000
    else if vehicleType = some "car" then 10000
    else if vehicleType = some "suv" then 12000
    else if vehicleType = some "luxury" then 15000
    else 10000
  let peak : ℝ := if (7 ≤ hour ∧ hour ≤ 9) ∨ (16 ≤ hour ∧ hour ≤ 19) then 1.2 else 1.0
  let age := currentYear - vehicleYear
  let quality : ℝ := if age ≤ 2 then 1.1 else if age ≤ 5 then 1.0 else 0.9
  { price := ⌈d * rate * peak * quality / 1000⌉ * 1000,
    breakdown :=
      { distanceInKm := (round (d * 10) : ℤ) / 10,
        baseRate := rate,
        peakHourMultiplier := peak,
        qualityMultiplier := quality } }

/-! ### Concrete fixtures used by witnesses and counterexamples -/

/-- A freshly created booking: `pending_driver`, no driver, no bids. -/
def baseTrip : Trip :=
  { id := 1, requestedBy := 1, driver := none, price := 0, maxPrice := none,
    vehicleTypeUsed := none, status := .pending_driver, driverRequests := [],
    passengers := [], confirmedAt := none, cancellationReason := none }

/-- A complete vehicle record. -/
def vehOk : Vehicle :=
  { brand := some "Toyota Vios", seats := some 4, year := some 2020,
    licensePlate := some "51A-12345" }

/-- A registered driver holding `vehOk`. -/
def drv7 : User := { id := 7, role := "driver", vehicle := some vehOk }

/-- A pending booking whose requester set `maxPrice` to 0. -/
def tripZeroCap : Trip := { baseTrip with maxPrice := some 0 }

/-- A pending booking with a 100000 VND price cap. -/
def tripCap : Trip := { baseTrip with maxPrice := some 100000 }

/-- A pending booking carrying one already-declined bid (id 2) of driver 7. -/
def tripStaleBid : Trip :=
  { baseTrip with driverRequests :=
      [{ id := 2, driver := 7, proposedPrice := 90000, message := none,
         status := .declined, requestedAt := 1, respondedAt := some 2 }] }

/-- A confirmed booking (driver 7 assigned) with one accepted, paid-up
passenger on the roster. -/
def tripConfirmedPax : Trip :=
  { baseTrip with
    status := .confirmed
    driver := some 7
    price := 95000
    passengers :=
      [{ user := 2, status := .accepted, paymentStatus := .completed,
         paymentId := some 3, requestedAt := some 1, updatedAt := some 1 }] }

/-- A confirmed booking (driver 7) with an empty roster. -/
def tripConfirmedEmpty : Trip :=
  { baseTrip with status := .confirmed, driver := some 7, price := 95000 }

/-- A vehicle record with two seats and no brand field. -/
def vehNoBrand : Vehicle :=
  { brand := none, seats := some 2, year := some 2021, licensePlate := some "59X1-999" }

/-- A branded 4-seat vehicle. -/
def vehBmw : Vehicle :=
  { brand := some "BMW 320i", seats := some 4, year := some 2022,
    licensePlate := some "30F-55555" }

/-- The scenario start point of the design document. -/
noncomputable def c4start : Coord := { lat := 10.7631, lng := 106.6814 }

/-- The scenario end point of the design document. -/
noncomputable def c4end : Coord := { lat := 10.7951, lng := 106.7218 }

/-- A car of year 2022 as pricing input. -/
def vSpecCar : VehicleSpec := { type := some "car", year := some 2022 }

/-- The first of two competing pending bids. -/
def bidOne : DriverRequest :=
  { id := 1, driver := 10, proposedPrice := 95000, message := none,
    status := .pending, requestedAt := 1, respondedAt := none }

/-- A pending booking with two competing pending bids (ids 1 and 2). -/
def tripTwoBids : Trip :=
  { baseTrip with driverRequests :=
      [bidOne,
       { id := 2, driver := 11, proposedPrice := 90000, message := none,
         status := .pending, requestedAt := 2, respondedAt := none }] }

/-- Driver 10, holder of `vehOk`, as looked up by `User.findById`. -/
def drv10 : User := { id := 10, role := "driver", vehicle := some vehOk }

/-- The user lookup visible to the accept path of `tripTwoBids`. -/
def fuC1 : Nat → Option User := fun n => if n = 10 then some drv10 else none

/-- A verified successful gateway callback for reference TXN100. -/
def qSuccess : VnpCallbackData :=
  { isValid := true, responseCode := "00", transactionStatus := "00",
    txnRef := "TXN100", transactionNo := some "12345", bankCode := some "NCB",
    bankTranNo := none, cardType := none, payDate := none }

/-- A verified successful gateway callback for reference TXN200. -/
def qSuccessB : VnpCallbackData :=
  { isValid := true, responseCode := "00", transactionStatus := "00",
    txnRef := "TXN200", transactionNo := some "12345", bankCode := some "NCB",
    bankTranNo := none, cardType := none, payDate := none }

/-- A Payment in the terminal `cancelled` state, reference TXN100. -/
def payCancelled : Payment :=
  { id := 50, user := 2, trip := 1, amount := 95000, vnpTxnRef := "TXN100",
    status := .cancelled, completedAt := none, vnpResponse := none,
    vnpTransactionNo := none, vnpBankCode := none, vnpBankTranNo := none,
    vnpCardType := none, vnpPayDate := none, note := none }

/-- A pending Payment of the booking price by user 2, reference TXN200. -/
def payPending : Payment :=
  { id := 51, user := 2, trip := 1, amount := 95000, vnpTxnRef := "TXN200",
    status := .pending, completedAt := none, vnpResponse := none,
    vnpTransactionNo := none, vnpBankCode := none, vnpBankTranNo := none,
    vnpCardType := none, vnpPayDate := none, note := none }

/-! ### Lemmas about the pricing engine -/

lemma atan2_nonneg {y x : ℝ} (hy : 0 ≤ y) (hx : 0 ≤ x) : 0 ≤ atan2 y x := by
  unfold atan2
  split_ifs with h1 h2 h3 h4
  · have harc := Real.arctan_strictMono.monotone (div_nonneg hy h1.le)
    rwa [Real.arctan_zero] at harc
  · linarith
  · linarith [Real.pi_pos]
  · linarith
  · exact le_refl 0

lemma calculateDistance_nonneg (p q : Coord) : 0 ≤ calculateDistance p q := by
  unfold calculateDistance
  have h := atan2_nonneg (Real.sqrt_nonneg (havTerm p q))
    (Real.sqrt_nonneg (1 - havTerm p q))
  linarith

lemma getBaseRateByVehicleType_nonneg (t : String) :
    0 ≤ getBaseRateByVehicleType t := by
  unfold getBaseRateByVehicleType
  split_ifs <;> norm_num

lemma getPeakHourMultiplier_nonneg (hour : ℕ) : 0 ≤ getPeakHourMultiplier hour := by
  unfold getPeakHourMultiplier
  split_ifs <;> norm_num

lemma getVehicleQualityMultiplier_nonneg (cy vy : ℤ) :
    0 ≤ getVehicleQualityMultiplier cy vy := by
  unfold getVehicleQualityMultiplier
  split_ifs <;> norm_num

lemma havTerm_symm (p q : Coord) : havTerm p q = havTerm q p := by
  unfold havTerm
  have h1 : (p.lat - q.lat) * Real.pi / 180 / 2 =
      -((q.lat - p.lat) * Real.pi / 180 / 2) := by ring
  have h2 : (p.lng - q.lng) * Real.pi / 180 / 2 =
      -((q.lng - p.lng) * Real.pi / 180 / 2) := by ring
  rw [h1, h2, Real.sin_neg, Real.sin_neg]
  ring

lemma havTerm_self (p : Coord) : havTerm p p = 0 := by
  unfold havTerm
  have h1 : (p.lat - p.lat) * Real.pi / 180 / 2 = 0 := by ring
  have h2 : (p.lng - p.lng) * Real.pi / 180 / 2 = 0 := by ring
  rw [h1, h2, Real.sin_zero]
  ring

lemma baseRate_cases (t : Option String) :
    getBaseRateByVehicleType (effVehicleType t) =
      (if t = some "motorcycle" then (5000 : ℝ)
       else if t = some "car" then 10000
       else if t = some "suv" then 12000
       else if t = some "luxury" then 15000
       else 10000) := by
  cases t with
  | none => rfl
  | some s =>
    by_cases h0 : s = ""
    · subst h0
      rfl
    · simp only [effVehicleType, if_neg h0, getBaseRateByVehicleType,
        Option.some.injEq]

/-! ### Lemmas about the bid-resolution list update -/

lemma updateFirstBy_cons {α : Type} (p : α → Bool) (f : α → α) (x : α) (l : List α) :
    updateFirstBy p f (x :: l) =
      if p x then f x :: l else x :: updateFirstBy p f l := rfl

lemma updateFirstBy_mem_of_find? {α : Type} (p : α → Bool) (f : α → α) :
    ∀ {l : List α} {b : α}, l.find? p = some b → f b ∈ updateFirstBy p f l := by
  intro l
  induction l with
  | nil => intro b h; simp at h
  | cons y ys ih =>
    intro b h
    by_cases hy : p y = true
    · rw [List.find?_cons_of_pos _ hy] at h
      cases h
      rw [updateFirstBy_cons, if_pos hy]
      exact List.mem_cons_self _ _
    · rw [List.find?_cons_of_neg _ (by simpa using hy)] at h
      rw [updateFirstBy_cons, if_neg hy]
      exact List.mem_cons_of_mem _ (ih h)

lemma acceptTransform_status (rid now : Nat) (r : DriverRequest) :
    (acceptTransform rid now r).status ≠ ReqStatus.pending := by
  unfold acceptTransform
  split_ifs with h1 h2
  · simp
  · simp
  · simpa using h2

lemma countAccepted_nil : countAccepted [] = 0 := rfl

lemma countAccepted_cons (r : DriverRequest) (l : List DriverRequest) :
    countAccepted (r :: l) =
      (if r.status = ReqStatus.accepted then 1 else 0) + countAccepted l := by
  by_cases h : r.status = ReqStatus.accepted <;>
    simp [countAccepted, List.filter_cons, h, Nat.add_comm]

lemma countAccepted_eq_zero_iff (reqs : List DriverRequest) :
    countAccepted reqs = 0 ↔ ∀ r ∈ reqs, r.status ≠ ReqStatus.accepted := by
  induction reqs with
  | nil => simp [countAccepted_nil]
  | cons r rs ih =>
    rw [countAccepted_cons]
    by_cases h : r.status = ReqStatus.accepted
    · simp [h]
    · simp [h, ih]

lemma resolveRequests_eq_map (rid now : Nat) :
    ∀ (reqs : List DriverRequest), (reqs.map fun r => r.id).Nodup →
      (∃ B, reqs.find? (fun r => r.id = rid) = some B) →
      resolveRequests rid now reqs = reqs.map (acceptTransform rid now) := by
  intro reqs
  induction reqs with
  | nil => intro _ _; rfl
  | cons r rs ih =>
    intro hnd hex
    obtain ⟨B, hB⟩ := hex
    by_cases hr : r.id = rid
    · unfold resolveRequests
      rw [updateFirstBy_cons, if_pos (by simp [hr]), List.map_cons, List.map_cons]
      congr 1
      · simp [acceptTransform, hr]
      · apply List.map_congr_left
        intro x hx
        have hxid : x.id ≠ rid := by
          have hnotin : r.id ∉ rs.map fun t => t.id := (List.nodup_cons.mp hnd).1
          intro hxe
          exact hnotin (by rw [hr, ← hxe]; exact List.mem_map_of_mem _ hx)
        by_cases hp : x.status = ReqStatus.pending <;>
          simp [acceptTransform, hxid, hp]
    · have hB2 : rs.find? (fun x => x.id = rid) = some B := by
        rw [List.find?_cons_of_neg _ (by simp [hr])] at hB
        exact hB
      unfold resolveRequests
      rw [updateFirstBy_cons, if_neg (by simp [hr]), List.map_cons, List.map_cons]
      congr 1
      · by_cases hp : r.status = ReqStatus.pending <;>
          simp [acceptTransform, hr, hp]
      · have hres := ih (List.nodup_cons.mp hnd).2 ⟨B, hB2⟩
        unfold resolveRequests at hres
        exact hres

lemma countAccepted_map_accept (rid now : Nat) :
    ∀ (reqs : List DriverRequest), (reqs.map fun r => r.id).Nodup →
      (∃ B, reqs.find? (fun r => r.id = rid) = some B) →
      countAccepted reqs = 0 →
      countAccepted (reqs.map (acceptTransform rid now)) = 1 := by
  intro reqs
  induction reqs with
  | nil => intro _ hex _; obtain ⟨B, hB⟩ := hex; simp at hB
  | cons r rs ih =>
    intro hnd hex h0
    obtain ⟨B, hB⟩ := hex
    have h0r : r.status ≠ ReqStatus.accepted :=
      (countAccepted_eq_zero_iff _).mp h0 r (List.mem_cons_self _ _)
    have h0rs : countAccepted rs = 0 := by
      rw [countAccepted_eq_zero_iff]
      intro x hx
      exact (countAccepted_eq_zero_iff _).mp h0 x (List.mem_cons_of_mem _ hx)
    by_cases hr : r.id = rid
    · rw [List.map_cons, countAccepted_cons,
        if_pos (by simp [acceptTransform, hr])]
      have hz : countAccepted (rs.map (acceptTransform rid now)) = 0 := by
        rw [countAccepted_eq_zero_iff]
        intro x hx
        rcases List.mem_map.mp hx with ⟨y, hy, rfl⟩
        have hyid : y.id ≠ rid := by
          have hnotin : r.id ∉ rs.map fun t => t.id := (List.nodup_cons.mp hnd).1
          intro hxe
          exact hnotin (by rw [hr, ← hxe]; exact List.mem_map_of_mem _ hy)
        have hyacc : y.status ≠ ReqStatus.accepted :=
          (countAccepted_eq_zero_iff _).mp h0rs y hy
        by_cases hp : y.status = ReqStatus.pending <;>
          simp [acceptTransform, hyid, hp, hyacc]
      rw [hz]
    · have hB2 : rs.find? (fun x => x.id = rid) = some B := by
        rw [List.find?_cons_of_neg _ (by simp [hr])] at hB
        exact hB
      have hracc : (acceptTransform rid now r).status ≠ ReqStatus.accepted := by
        by_cases hp : r.status = ReqStatus.pending <;>
          simp [acceptTransform, hr, hp, h0r]
      rw [List.map_cons, countAccepted_cons, if_neg hracc,
        ih (List.nodup_cons.mp hnd).2 ⟨B, hB2⟩ h0rs]

/-! ### Claim theorems -/

/-- C4: for every input (with the vehicle year supplied and nonzero, as the
claim presumes a given vehicle year), the estimated price equals the
haversine distance times the per-km base rate for the vehicle type (unknown
type falling back to the car rate 10000) times the peak multiplier (1.2 for
hours in [7,9] or [16,19]) times the age multiplier (age at most 2 gives
1.1, 3 to 5 gives 1.0, over 5 gives 0.9), rounded up to the nearest 1000,
with distanceInKm, baseRate, peakHourMultiplier and qualityMultiplier
exposed in the breakdown — i.e. `calculatePrice` coincides with the
spec-worded `specPriceResult`. -/
theorem C4_price_formula (s e : Coord) (v : VehicleSpec) (hour : ℕ) (yr y : ℤ)
    (hy : v.year = some y) (h0 : y ≠ 0) :
    calculatePrice s e v hour yr =
      specPriceResult (calculateDistance s e) v.type y hour yr := by
  unfold calculatePrice specPriceResult
  rw [hy]
  simp only [effVehicleYear]
  rw [if_neg h0]
  rw [baseRate_cases]
  rfl

/-- C4 (witness): the formula instantiated on the scenario coordinates of
the design document with a car of year 2022 at hour 8 in year 2025. -/
theorem C4_witness :
    vSpecCar.year = some 2022 ∧ (2022 : ℤ) ≠ 0 ∧
    calculatePrice c4start c4end vSpecCar 8 2025 =
      specPriceResult (calculateDistance c4start c4end) vSpecCar.type 2022 8 2025 :=
  ⟨rfl, by decide, C4_price_formula c4start c4end vSpecCar 8 2025 2022 rfl (by decide)⟩

/-- C5: the pricing function is deterministic (it is a pure function of its
inputs, the clock being one of them) and returns a non-negative price that
is a multiple of 1000, and the haversine distance satisfies
`distance(A,B) = distance(B,A)` and `distance(A,A) = 0`. -/
theorem C5_pricing_properties :
    (∀ (s e : Coord) (v : VehicleSpec) (hour : ℕ) (yr : ℤ),
       calculatePrice s e v hour yr = calculatePrice s e v hour yr ∧
       0 ≤ (calculatePrice s e v hour yr).price ∧
       (1000 : ℤ) ∣ (calculatePrice s e v hour yr).price) ∧
    (∀ p q : Coord, calculateDistance p q = calculateDistance q p) ∧
    (∀ p : Coord, calculateDistance p p = 0) := by
  refine ⟨?_, ?_, ?_⟩
  · intro s e v hour yr
    refine ⟨rfl, ?_, ?_⟩
    · show (0 : ℤ) ≤
        ⌈calculateDistance s e * getBaseRateByVehicleType (effVehicleType v.type) *
          getPeakHourMultiplier hour *
          getVehicleQualityMultiplier yr (effVehicleYear v.year yr) / 1000⌉ * 1000
      have hx : (0 : ℝ) ≤
          calculateDistance s e * getBaseRateByVehicleType (effVehicleType v.type) *
            getPeakHourMultiplier hour *
            getVehicleQualityMultiplier yr (effVehicleYear v.year yr) :=
        mul_nonneg
          (mul_nonneg
            (mul_nonneg (calculateDistance_nonneg s e)
              (getBaseRateByVehicleType_nonneg _))
            (getPeakHourMultiplier_nonneg hour))
          (getVehicleQualityMultiplier_nonneg _ _)
      have hc : (0 : ℤ) ≤
          ⌈calculateDistance s e * getBaseRateByVehicleType (effVehicleType v.type) *
            getPeakHourMultiplier hour *
            getVehicleQualityMultiplier yr (effVehicleYear v.year yr) / 1000⌉ :=
        Int.ceil_nonneg (by positivity)
      positivity
    · exact dvd_mul_left 1000 _
  · intro p q
    unfold calculateDistance
    rw [havTerm_symm]
  · intro p
    unfold calculateDistance
    rw [havTerm_self, Real.sqrt_zero, sub_zero, Real.sqrt_one]
    unfold atan2
    rw [if_pos one_pos]
    norm_num [Real.arctan_zero]

/-- C1: with the requester acting on a `pending_driver` booking whose bid
ids are distinct, accepting the pending bid `B` (whose driver's user record
carries a vehicle) returns, in one state transition (one `save()`), a
booking in which `B` is accepted, every other previously-pending bid is
declined, and driver, price (set to the bid's proposed price),
vehicleTypeUsed, status `confirmed` and confirmedAt are all set together;
consequently, when the pre-state had no accepted bid, the post-state has
exactly one. -/
theorem C1_accept_bid (trip : Trip) (actor rid now : Nat) (B : DriverRequest)
    (findUser : Nat → Option User) (du : User) (v : Vehicle)
    (hstat : trip.status = .pending_driver)
    (hreq : trip.requestedBy = actor)
    (hfind : (trip.driverRequests.find? fun r => r.id = rid) = some B)
    (hpend : B.status = .pending)
    (hnd : (trip.driverRequests.map fun r => r.id).Nodup)
    (hdu : findUser B.driver = some du)
    (hveh : du.vehicle = some v) :
    ∃ t2, respondToDriverRequest trip actor rid "accept" findUser now = .ok t2 ∧
      t2.status = .confirmed ∧
      t2.driver = some B.driver ∧
      t2.price = B.proposedPrice ∧
      t2.confirmedAt = some now ∧
      t2.vehicleTypeUsed = some (classifyVehicle v) ∧
      { B with status := ReqStatus.accepted, respondedAt := some now } ∈
        t2.driverRequests ∧
      (∀ r ∈ trip.driverRequests, r.id ≠ rid → r.status = .pending →
        { r with status := ReqStatus.declined, respondedAt := some now } ∈
          t2.driverRequests) ∧
      (∀ r ∈ t2.driverRequests, r.status ≠ .pending) ∧
      (countAccepted trip.driverRequests = 0 →
        countAccepted t2.driverRequests = 1) := by
  have hid : B.id = rid := by
    have := List.find?_some hfind
    simpa using this
  have hmemB : B ∈ trip.driverRequests := List.mem_of_find?_eq_some hfind
  unfold respondToDriverRequest
  rw [if_neg (by simp [hreq]), if_neg (by simp [hstat])]
  simp only [hfind]
  rw [if_neg (by simp [hpend])]
  rw [if_pos trivial]
  simp only [hdu]
  have hmap := resolveRequests_eq_map rid now trip.driverRequests hnd ⟨B, hfind⟩
  refine ⟨_, rfl, rfl, rfl, rfl, rfl, by simp [hveh], ?_, ?_, ?_, ?_⟩
  · show { B with status := ReqStatus.accepted, respondedAt := some now } ∈
      resolveRequests rid now trip.driverRequests
    rw [hmap]
    have : acceptTransform rid now B =
        { B with status := ReqStatus.accepted, respondedAt := some now } := by
      simp [acceptTransform, hid]
    rw [← this]
    exact List.mem_map_of_mem _ hmemB
  · intro r hr hrid hrp
    show { r with status := ReqStatus.declined, respondedAt := some now } ∈
      resolveRequests rid now trip.driverRequests
    rw [hmap]
    have : acceptTransform rid now r =
        { r with status := ReqStatus.declined, respondedAt := some now } := by
      simp [acceptTransform, hrid, hrp]
    rw [← this]
    exact List.mem_map_of_mem _ hr
  · intro r hr
    rw [hmap] at hr
    rcases List.mem_map.mp hr with ⟨y, -, rfl⟩
    exact acceptTransform_status rid now y
  · intro h0
    show countAccepted (resolveRequests rid now trip.driverRequests) = 1
    rw [hmap]
    exact countAccepted_map_accept rid now trip.driverRequests hnd ⟨B, hfind⟩ h0

/-- C1 (witness): the concrete booking `tripTwoBids` with two pending bids,
instantiated at accepting bid 1. -/
theorem C1_witness :
    ∃ t2, respondToDriverRequest tripTwoBids 1 1 "accept" fuC1 99 = .ok t2 ∧
      t2.status = .confirmed ∧ countAccepted t2.driverRequests = 1 := by
  obtain ⟨t2, hok, hst, -, -, -, -, -, -, -, hcnt⟩ :=
    C1_accept_bid tripTwoBids 1 1 99 bidOne fuC1 drv10 vehOk rfl rfl rfl rfl
      (by decide) rfl rfl
  exact ⟨t2, hok, hst, hcnt (by decide)⟩

/-- C10 (counterexample): the claim that price estimation and bid acceptance
classify a vehicle by one and the same function is false: on a two-seat
vehicle without a brand field, `estimatePrice` classifies `car` while the
acceptance path classifies `motorcycle` (which is what the claimed rules
prescribe for two seats). -/
theorem C10_counterexample :
    classifyEstimateVehicle vehNoBrand = "car" ∧
    classifyVehicle vehNoBrand = "motorcycle" ∧
    specClassifyVehicle vehNoBrand = "motorcycle" ∧
    classifyEstimateVehicle vehNoBrand ≠ classifyVehicle vehNoBrand := by
  refine ⟨rfl, rfl, rfl, ?_⟩
  decide

/-- C10 (amended): the classification used on bid acceptance agrees with the
claimed rules (seats at most 2 motorcycle, more than 5 suv, otherwise car,
luxury override on a brand containing a luxury make) on every vehicle; the
classification used by price estimation agrees with it whenever the
vehicle's brand is present and non-empty, and only falls back to `car`
regardless of seats when the brand is absent or empty. -/
theorem C10_classification_sites :
    (∀ v : Vehicle, classifyVehicle v = specClassifyVehicle v) ∧
    (∀ (v : Vehicle) (b : String), v.brand = some b → b ≠ "" →
      classifyEstimateVehicle v = specClassifyVehicle v) := by
  constructor
  · intro v
    unfold classifyVehicle specClassifyVehicle
    cases hb : v.brand with
    | none => simp [strTruthy]
    | some b =>
      by_cases h0 : b = ""
      · subst h0
        simp [strTruthy, show luxAny "" = false by decide]
      · simp [strTruthy, h0]
  · intro v b hb h0
    unfold classifyEstimateVehicle specClassifyVehicle
    rw [hb]
    simp [h0]

/-- C10 (witness): the agreement instantiated on a branded BMW vehicle. -/
theorem C10_witness :
    vehBmw.brand = some "BMW 320i" ∧ "BMW 320i" ≠ "" ∧
    classifyEstimateVehicle vehBmw = specClassifyVehicle vehBmw :=
  ⟨rfl, by decide, C10_classification_sites.2 vehBmw "BMW 320i" rfl (by decide)⟩

/-- C8 (counterexample): the claim that deletion succeeds only while
`pending_driver` (requester) or while confirmed with zero accepted
passengers is false: the assigned driver successfully deletes a confirmed
booking carrying one accepted passenger. -/
theorem C8_counterexample :
    tripConfirmedPax.status = TripStatus.confirmed ∧
    passengerCount tripConfirmedPax = 1 ∧
    isOkE (deleteTrip tripConfirmedPax 7) = true := by
  refine ⟨rfl, rfl, ?_⟩
  decide

/-- C8 (amended): `deleteTrip` succeeds exactly when the actor is the
requester or the assigned driver, the actor is the requester whenever the
booking is still `pending_driver`, and the status is none of `paid`,
`in_progress`, `completed` — so a confirmed booking is deletable by either
party regardless of accepted passengers, a cancelled one is deletable too,
and deletion of paid, in-progress or completed bookings always fails. -/
theorem C8_delete_characterisation :
    ∀ (trip : Trip) (actor : Nat),
      isOkE (deleteTrip trip actor) = true ↔
        ((trip.requestedBy = actor ∨ trip.driver = some actor) ∧
         (trip.status = .pending_driver → trip.requestedBy = actor) ∧
         trip.status ≠ .paid ∧ trip.status ≠ .in_progress ∧
         trip.status ≠ .completed) := by
  intro trip actor
  unfold deleteTrip
  split_ifs with h1 h2 h3
  · simp only [isOkE]
    constructor
    · intro h
      cases h
    · rintro ⟨hor, -, -⟩
      rcases h1 with ⟨ha, hb⟩
      rcases hor with h | h
      · exact absurd h ha
      · exact absurd h hb
  · simp only [isOkE]
    constructor
    · intro h
      cases h
    · rintro ⟨-, hp, -⟩
      exact absurd (hp h2.1) h2.2
  · simp only [isOkE]
    constructor
    · intro h
      cases h
    · rintro ⟨-, -, ha, hb, hc⟩
      rcases h3 with h | h | h
      · exact absurd h ha
      · exact absurd h hb
      · exact absurd h hc
  · simp only [isOkE, true_iff]
    refine ⟨?_, ?_, ?_⟩
    · by_contra hor
      push_neg at hor
      exact h1 ⟨hor.1, hor.2⟩
    · intro hp
      by_contra hr
      exact h2 ⟨hp, hr⟩
    · push_neg at h3
      exact h3

/-- C8 (witness): the characterisation instantiated on a pending booking
deleted by its requester. -/
theorem C8_witness : isOkE (deleteTrip baseTrip 1) = true :=
  (C8_delete_characterisation baseTrip 1).2
    ⟨Or.inl rfl, fun _ => rfl, by decide, by decide, by decide⟩

/-- C2 (code_bug): `vnpayReturn` has no terminal-status guard — a verified
successful callback whose reference matches a Payment already in the
terminal `cancelled` state re-transitions that Payment to `completed` (and
mutates the roster), instead of leaving it untouched. -/
theorem C2_terminal_payment_retransitioned :
    payCancelled.status = PaymentStatus.cancelled ∧
    qSuccess.txnRef = payCancelled.vnpTxnRef ∧
    ∃ p2 t2, (vnpayReturn qSuccess (some (payCancelled, tripConfirmedEmpty)) 5).2 =
        some (p2, t2) ∧
      p2.status = PaymentStatus.completed :=
  ⟨rfl, rfl, markAsCompleted payCancelled qSuccess 5, _, rfl, rfl⟩

/-- C3 (code_bug): on a verified successful callback for a pending Payment
of a confirmed booking, the Payment is completed (stamp plus gateway
metadata) and the payer joins the roster as accepted with payment completed
— but the booking's status stays `confirmed`: the code never advances it to
`paid`, although the repository's own walkthrough documents that it should
become `paid` automatically. -/
theorem C3_payment_success_effects :
    payPending.status = PaymentStatus.pending ∧
    tripConfirmedEmpty.status = TripStatus.confirmed ∧
    payPending.amount = tripConfirmedEmpty.price ∧
    qSuccessB.txnRef = payPending.vnpTxnRef ∧
    ∃ p2 t2, (vnpayReturn qSuccessB (some (payPending, tripConfirmedEmpty)) 9).2 =
        some (p2, t2) ∧
      p2.status = PaymentStatus.completed ∧
      p2.completedAt = some 9 ∧
      p2.vnpTransactionNo = some "12345" ∧
      (∃ e ∈ t2.passengers, e.user = payPending.user ∧
        e.status = PassStatus.accepted ∧ e.paymentStatus = RosterPayStatus.completed) ∧
      t2.status = TripStatus.confirmed ∧ t2.status ≠ TripStatus.paid := by
  refine ⟨rfl, rfl, rfl, rfl, _, _, rfl, rfl, rfl, rfl, ?_, rfl, by decide⟩
  decide

/-- C6 (counterexample): the claim that a bid with `proposedPrice` above a
set `maxPrice` is always rejected is false: with `maxPrice` set to 0 the
JavaScript truthiness test skips the cap check and a 50000 VND bid is
accepted. -/
theorem C6_counterexample :
    tripZeroCap.maxPrice = some 0 ∧ (0 : Int) < 50000 ∧
    isOkE (driverRequestBooking tripZeroCap drv7 50000 none 5 6) = true := by
  refine ⟨rfl, by decide, ?_⟩
  decide

/-- C6 (amended): bid submission succeeds only if the booking is still
`pending_driver`, the driver has no existing bid on it, and — when
`maxPrice` is set to a nonzero value — the proposed price does not exceed
it; a booking in another status, a duplicate bid, or a price above a
nonzero cap is rejected with an error (since a rejected request never
reaches `save()`, the booking is left unchanged). -/
theorem C6_bid_guards :
    (∀ (trip : Trip) (d : User) (pp : Int) (msg : Option String) (nid now : Nat)
       (t2 : Trip), driverRequestBooking trip d pp msg nid now = .ok t2 →
       trip.status = .pending_driver ∧
       (∀ r ∈ trip.driverRequests, r.driver ≠ d.id) ∧
       (∀ m : Int, trip.maxPrice = some m → m ≠ 0 → pp ≤ m)) ∧
    (∀ (trip : Trip) (d : User) (pp : Int) (msg : Option String) (nid now : Nat),
       trip.status ≠ .pending_driver →
       errCode (driverRequestBooking trip d pp msg nid now) = some 400) ∧
    (∀ (trip : Trip) (d : User) (pp : Int) (msg : Option String) (nid now : Nat)
       (r : DriverRequest), r ∈ trip.driverRequests → r.driver = d.id →
       errCode (driverRequestBooking trip d pp msg nid now) = some 400) ∧
    (∀ (trip : Trip) (d : User) (pp : Int) (msg : Option String) (nid now : Nat)
       (m : Int), trip.maxPrice = some m → m ≠ 0 → m < pp →
       isOkE (driverRequestBooking trip d pp msg nid now) = false) := by
  refine ⟨?_, ?_, ?_, ?_⟩
  · intro trip d pp msg nid now t2 h
    unfold driverRequestBooking at h
    by_cases h1 : trip.status = TripStatus.pending_driver
    · rw [if_neg (by simp [h1])] at h
      by_cases h2 : (trip.driverRequests.find? fun r => r.driver = d.id).isSome = true
      · rw [if_pos h2] at h
        exact Except.noConfusion h
      · rw [if_neg h2] at h
        refine ⟨h1, ?_, ?_⟩
        · intro r hr
          have hnone : (trip.driverRequests.find? fun r => r.driver = d.id) = none := by
            cases hf : trip.driverRequests.find? fun r => r.driver = d.id with
            | none => rfl
            | some x => rw [hf] at h2; simp at h2
          have := List.find?_eq_none.mp hnone r hr
          simpa using this
        · intro m hm hm0
          split_ifs at h
          all_goals
            simp only [hm] at h
            by_cases h5 : m ≠ 0 ∧ m < pp
            · rw [if_pos h5] at h
              exact Except.noConfusion h
            · exact le_of_not_lt fun hlt => h5 ⟨hm0, hlt⟩
    · rw [if_pos (by simp [h1])] at h
      exact Except.noConfusion h
  · intro trip d pp msg nid now h1
    unfold driverRequestBooking
    rw [if_pos (by simp [h1])]
    rfl
  · intro trip d pp msg nid now r hr hrd
    unfold driverRequestBooking
    by_cases h1 : trip.status = TripStatus.pending_driver
    · rw [if_neg (by simp [h1])]
      have h2 : (trip.driverRequests.find? fun r => r.driver = d.id).isSome = true := by
        cases hf : trip.driverRequests.find? fun r => r.driver = d.id with
        | none =>
          have := List.find?_eq_none.mp hf r hr
          simp [hrd] at this
        | some x => rfl
      rw [if_pos h2]
      rfl
    · rw [if_pos (by simp [h1])]
      rfl
  · intro trip d pp msg nid now m hm hm0 hmp
    unfold driverRequestBooking
    split_ifs
    all_goals try rfl
    all_goals
      simp only [hm]
      rw [if_pos ⟨hm0, hmp⟩]
      rfl

/-- C6 (witness): a bid exceeding a nonzero cap is rejected. -/
theorem C6_witness :
    tripCap.maxPrice = some 100000 ∧ (100000 : Int) < 150000 ∧
    isOkE (driverRequestBooking tripCap drv7 150000 none 5 6) = false :=
  ⟨rfl, by decide,
    C6_bid_guards.2.2.2 tripCap drv7 150000 none 5 6 100000 rfl (by decide) (by decide)⟩

/-- C7: resolving a bid fails, before any mutation, with 403 for anyone but
the requester, with 400 once the booking is no longer `pending_driver`, and
with 400 against a bid that is no longer `pending`, for both `accept` and
`decline` (an error response never reaches `save()`, so the booking and all
bids are left unchanged). -/
theorem C7_resolution_guards :
    (∀ (trip : Trip) (actor rid : Nat) (action : String)
       (fu : Nat → Option User) (now : Nat), trip.requestedBy ≠ actor →
       errCode (respondToDriverRequest trip actor rid action fu now) = some 403) ∧
    (∀ (trip : Trip) (actor rid : Nat) (action : String)
       (fu : Nat → Option User) (now : Nat), trip.requestedBy = actor →
       trip.status ≠ .pending_driver →
       errCode (respondToDriverRequest trip actor rid action fu now) = some 400) ∧
    (∀ (trip : Trip) (actor rid : Nat) (action : String)
       (fu : Nat → Option User) (now : Nat) (dr : DriverRequest),
       trip.requestedBy = actor → trip.status = .pending_driver →
       (trip.driverRequests.find? fun r => r.id = rid) = some dr →
       dr.status ≠ .pending →
       errCode (respondToDriverRequest trip actor rid action fu now) = some 400) := by
  refine ⟨?_, ?_, ?_⟩
  · intro trip actor rid action fu now h1
    unfold respondToDriverRequest
    rw [if_pos h1]
    rfl
  · intro trip actor rid action fu now h1 h2
    unfold respondToDriverRequest
    rw [if_neg (by simp [h1]), if_pos h2]
    rfl
  · intro trip actor rid action fu now dr h1 h2 h3 h4
    unfold respondToDriverRequest
    rw [if_neg (by simp [h1]), if_neg (by simp [h2])]
    simp only [h3]
    rw [if_pos h4]
    rfl

/-- C7 (witness): the stale-bid guard instantiated: resolving the
already-declined bid 2 of `tripStaleBid` fails with 400. -/
theorem C7_witness :
    errCode (respondToDriverRequest tripStaleBid 1 2 "accept" (fun _ => none) 9) =
      some 400 :=
  C7_resolution_guards.2.2 tripStaleBid 1 2 "accept" (fun _ => none) 9
    { id := 2, driver := 7, proposedPrice := 90000, message := none,
      status := .declined, requestedAt := 1, respondedAt := some 2 }
    rfl rfl rfl (by decide)

/-- C9 (counterexample): the claim that a cancellation by the correct actor
on any non-terminal status succeeds is false: on a `pending_driver` booking
the correct actor is the requester, yet `cancelTrip` dereferences the null
`driver` field and fails with a 500, mutating nothing. -/
theorem C9_counterexample :
    baseTrip.status = TripStatus.pending_driver ∧
    baseTrip.requestedBy = 1 ∧ baseTrip.driver = none ∧
    errCode (cancelTrip baseTrip 1 (some "change of plans")) = some 500 :=
  ⟨rfl, rfl, rfl, rfl⟩

/-- C9 (amended): general mutation (`updateTrip`) follows the claimed
authorisation rule — only the requester while `pending_driver`, only the
assigned driver once confirmed/paid/in-progress, wrong actors get 403, and
completed or cancelled bookings reject every update — but cancellation is
driver-only: with a driver assigned, a non-driver actor gets 403 and the
driver's cancel on a non-completed, non-cancelled booking sets `cancelled`
plus the reason, completed or already-cancelled bookings reject every
cancellation, while on a booking without a driver (every `pending_driver`
booking) cancellation always fails with a 500 server error, so the
requester can never cancel a pending booking. -/
theorem C9_mutation_auth :
    (∀ (trip : Trip) (actor : Nat) (upd : Trip → Trip) (t2 : Trip),
       updateTrip trip actor upd = .ok t2 →
       (trip.status = .pending_driver → trip.requestedBy = actor) ∧
       ((trip.status = .confirmed ∨ trip.status = .paid ∨
         trip.status = .in_progress) → trip.driver = some actor)) ∧
    (∀ (trip : Trip) (actor : Nat) (upd : Trip → Trip),
       trip.status = .pending_driver → trip.requestedBy ≠ actor →
       errCode (updateTrip trip actor upd) = some 403) ∧
    (∀ (trip : Trip) (actor : Nat) (upd : Trip → Trip),
       (trip.status = .confirmed ∨ trip.status = .paid ∨
        trip.status = .in_progress) → trip.driver ≠ some actor →
       errCode (updateTrip trip actor upd) = some 403) ∧
    (∀ (trip : Trip) (actor : Nat) (reason : Option String) (d : Nat),
       trip.driver = some d → d ≠ actor →
       errCode (cancelTrip trip actor reason) = some 403) ∧
    (∀ (trip : Trip) (actor : Nat) (reason : Option String),
       trip.driver = some actor → trip.status ≠ .completed →
       trip.status ≠ .cancelled →
       cancelTrip trip actor reason =
         .ok { trip with status := .cancelled, cancellationReason := reason }) ∧
    (∀ (trip : Trip) (actor : Nat) (reason : Option String),
       trip.driver = none →
       errCode (cancelTrip trip actor reason) = some 500) ∧
    (∀ (trip : Trip) (actor : Nat) (upd : Trip → Trip),
       (trip.status = .completed ∨ trip.status = .cancelled) →
       isOkE (updateTrip trip actor upd) = false) ∧
    (∀ (trip : Trip) (actor : Nat) (reason : Option String),
       (trip.status = .completed ∨ trip.status = .cancelled) →
       isOkE (cancelTrip trip actor reason) = false) := by
  refine ⟨?_, ?_, ?_, ?_, ?_, ?_, ?_, ?_⟩
  · intro trip actor upd t2 h
    unfold updateTrip at h
    split_ifs at h with h1 h2 h3 h4
    all_goals
      constructor
      · intro hp
        by_contra hr
        exact h2 ⟨hp, hr⟩
      · intro hc
        by_contra hd
        exact h3 ⟨hc, hd⟩
  · intro trip actor upd h1 h2
    unfold updateTrip
    by_cases h0 : ¬(trip.requestedBy = actor) ∧ ¬(trip.driver = some actor)
    · rw [if_pos h0]
      rfl
    · rw [if_neg h0, if_pos ⟨h1, h2⟩]
      rfl
  · intro trip actor upd h1 h2
    unfold updateTrip
    by_cases h0 : ¬(trip.requestedBy = actor) ∧ ¬(trip.driver = some actor)
    · rw [if_pos h0]
      rfl
    · rw [if_neg h0]
      have hnp : ¬(trip.status = .pending_driver ∧ ¬(trip.requestedBy = actor)) := by
        rintro ⟨hp, -⟩
        rcases h1 with h | h | h <;> rw [h] at hp <;> cases hp
      rw [if_neg hnp, if_pos ⟨h1, h2⟩]
      rfl
  · intro trip actor reason d hd hne
    unfold cancelTrip
    simp only [hd]
    rw [if_pos hne]
    rfl
  · intro trip actor reason hd h1 h2
    unfold cancelTrip
    simp only [hd]
    rw [if_neg (by simp), if_neg h1, if_neg h2]
  · intro trip actor reason hd
    unfold cancelTrip
    simp only [hd]
    rfl
  · intro trip actor upd h
    unfold updateTrip
    split_ifs
    all_goals rfl
  · intro trip actor reason h
    unfold cancelTrip
    cases hd : trip.driver with
    | none => rfl
    | some d =>
      simp only
      by_cases hne : d ≠ actor
      · rw [if_pos hne]
        rfl
      · rw [if_neg hne]
        rcases h with h | h
        · rw [if_pos h]
          rfl
        · rw [if_neg (by simp [h]), if_pos h]
          rfl

/-- C9 (witness): the driver's cancel on a confirmed booking succeeds and
records the reason. -/
theorem C9_witness :
    cancelTrip tripConfirmedEmpty 7 (some "weather") =
      .ok { tripConfirmedEmpty with
            status := .cancelled
            cancellationReason := some "weather" } :=
  C9_mutation_auth.2.2.2.2.1 tripConfirmedEmpty 7 (some "weather") rfl
    (by decide) (by decide)

end Carpool
